import Mathlib

/-!
Verification of the news-please Common Crawl extraction pipeline
(newsplease/crawler/commoncrawl_extractor.py and
newsplease/examples/commoncrawl.py) against its specification.

Shallow embedding: pure Python functions become Lean functions; the
filesystem and the shell become explicit state records; a Python
exception becomes an Except value; the external extraction capability
NewsPlease.from_warc is carried inside each record as the value it
would produce for that record (the spec treats extraction as an
external capability with signature RawRecord to Article or None,
possibly raising).
-/

set_option autoImplicit false

/-- Structured extraction result produced by the external extraction
capability (spec section 3, Article). Only the fields the filter logic of
commoncrawl_extractor.py touches are modelled: the host
(source_domain), the publish date entry of the article dict, and a
title standing for the remaining payload. The publish date is split
into presence of the key (publish_date_present, the Python test
publish_date in article) and the stored value (an Option String, since
the stored value itself can be None in Python). -/
structure Article where
  source_domain : String
  publish_date_present : Bool
  publish_date : Option String
  title : String
deriving DecidableEq

/-- Calendar date, the result type of date parsing. -/
structure PDate where
  year : Nat
  month : Nat
  day : Nat
deriving DecidableEq

/-- Splits a character list on the dash character, keeping empty
groups, like the string method split. -/
def split_on_dash : List Char → List (List Char)
  | [] => [[]]
  | c :: rest =>
    match split_on_dash rest with
    | [] => [[]]
    | g :: gs => if c = '-' then [] :: g :: gs else (c :: g) :: gs

/-- Value of a decimal digit character, none for any other character. -/
def char_digit? (c : Char) : Option Nat :=
  if c.isDigit then some (c.toNat - 48) else none

/-- Reads a nonempty all-digit character list as a decimal number. -/
def digits_to_nat? (cs : List Char) : Option Nat :=
  if cs = [] then none
  else cs.foldl (fun acc c =>
    match acc, char_digit? c with
    | some n, some d => some (10 * n + d)
    | _, _ => none) (some 0)

/-- Model of the external dateutil.parser.parse capability used at
commoncrawl_extractor.py line 101: parses an ISO-like Y-M-D string and
raises ValueError on anything else (dateutil raises ValueError on
strings it cannot interpret as a date). The error string names the
Python exception class. -/
def dateutil_parse (s : String) : Except String PDate :=
  match split_on_dash s.data with
  | [y, m, d] =>
    match digits_to_nat? y, digits_to_nat? m, digits_to_nat? d with
    | some yn, some mn, some dn => Except.ok ⟨yn, mn, dn⟩
    | _, _, _ => Except.error "ValueError"
  | _ => Except.error "ValueError"

/-- Embedding of CommonCrawlExtractor.__get_publishing_date
(commoncrawl_extractor.py lines 94-103): if the publish_date key is
present, the stored value is handed to parser.parse (which raises
TypeError on a None value and ValueError on a malformed string,
modelled as Except.error); otherwise the function returns None.
Note: this helper has no caller anywhere in the two source files. -/
def get_publishing_date (article : Article) : Except String (Option PDate) :=
  if article.publish_date_present then
    match article.publish_date with
    | none => Except.error "TypeError"
    | some s => (dateutil_parse s).map some
  else
    Except.ok none

/-- Record as yielded by warcio.ArchiveIterator inside
__process_warc_gz_file: a record type tag, the behaviour of the
external extraction capability on this record (ok none when
NewsPlease.from_warc returns None, error when it raises), and the
payload bytes behind the raw stream handle. -/
structure ArchRecord where
  rec_type : String
  extraction : Except String (Option Article)
  payload : List Nat

/-- Record after materialization by __process_warc_gz_file: the payload
bytes have been copied into read_stream (record.read_stream =
record.raw_stream.read() at line 190) and raw_stream is the stream
handle, present (some) until the del at line 194 removes it (none). -/
structure WarcRecord where
  rec_type : String
  extraction : Except String (Option Article)
  read_stream : List Nat
  raw_stream : Option Unit

/-- Embedding of the local function read_record
(commoncrawl_extractor.py lines 189-191): eagerly reads the payload of
the raw stream into read_stream; the stream handle is still attached. -/
def read_record (r : ArchRecord) : WarcRecord :=
  ⟨r.rec_type, r.extraction, r.payload, some ()⟩

/-- Embedding of the local function delete_raw_stream
(commoncrawl_extractor.py lines 193-195): removes the raw stream
handle from the record. -/
def delete_raw_stream (r : WarcRecord) : WarcRecord :=
  { r with raw_stream := none }

/-- Embedding of CommonCrawlExtractor.__process_warc_gz_file
(commoncrawl_extractor.py lines 176-203): materializes every record of
the archive (list(map(read_record, ArchiveIterator(stream)))), then
strips every raw stream handle (list(map(delete_raw_stream, ...))).
The returned list is exactly the argument passed to the callback
self.__callback_on_article_extracted at line 203. -/
def process_warc_gz_file (archive : List ArchRecord) : List WarcRecord :=
  (archive.map read_record).map delete_raw_stream

/-- Embedding of process_warc_record (examples/commoncrawl.py lines
100-109) together with an invocation flag: the first component is the
returned value (the extracted article standing for its JSON
serialization, or None), the second component records whether the
external extraction capability NewsPlease.from_warc was invoked.
Control flow of the source: records whose rec_type is not response
never reach the from_warc call and fall through to return None; for
response records, an exception raised by from_warc is caught by the
surrounding try/except and turns into return None as well. -/
def process_warc_record_ext (record : WarcRecord) : Option Article × Bool :=
  if record.rec_type = "response" then
    match record.extraction with
    | Except.ok (some article) => (some article, true)
    | Except.ok none => (none, true)
    | Except.error _ => (none, true)
  else
    (none, false)

/-- Value returned by process_warc_record (examples/commoncrawl.py
lines 100-109). -/
def process_warc_record (record : WarcRecord) : Option Article :=
  (process_warc_record_ext record).1

/-- Embedding of on_valid_article_extracted (examples/commoncrawl.py
lines 134-161) as the list of articles written to the gzip sink: the
pool maps process_warc_record over the batch and the writer loop at
lines 149-151 prints exactly the non-None results to the output file.
pool.imap_unordered may deliver the results in any order; the model
keeps input order, which is irrelevant to membership and counts. -/
def on_valid_article_extracted (warc_records : List WarcRecord) : List Article :=
  warc_records.filterMap process_warc_record

/-- Configuration surface of
CommonCrawlExtractor.extract_from_commoncrawl
(commoncrawl_extractor.py lines 219-257) restricted to the options the
claims mention. valid_hosts is Option to keep the None default
distinct from an empty list, as in the source. -/
structure ExtractConfig where
  valid_hosts : Option (List String)
  strict_date : Bool
  reuse_previously_downloaded_files : Bool
  delete_warc_after_extraction : Bool
  log_pathname_fully_extracted_warcs : Option String

/-- Articles reaching the sink for one archive file: extract_from_commoncrawl
stores the filter criteria in instance fields (lines 244-248) and calls
__run, which downloads the file and hands it to __process_warc_gz_file;
the materialized records go to the callback on_valid_article_extracted,
whose non-None process_warc_record results are written to the sink.
No code on this path reads __filter_valid_hosts, __filter_strict_date,
__filter_start_date or __filter_end_date (their only occurrences in the
source are the class defaults at lines 33-39 and the assignments at
lines 245-248), and __get_publishing_date is never called, so the
configuration does not influence the sink content. -/
def sink_articles (_cfg : ExtractConfig) (archive : List ArchRecord) : List Article :=
  on_valid_article_extracted (process_warc_gz_file archive)

/-- Uppercase hexadecimal digit for a value below 16, as used by the
percent-encoding of urllib.parse.quote_plus. -/
def hexDigitUpper (n : Nat) : Nat :=
  if n < 10 then 48 + n else 55 + n

/-- Encoding of one byte by urllib.parse.quote_plus: a space (byte 32)
becomes a plus sign (byte 43); ASCII letters, digits and the four
always-safe characters underscore, dot, hyphen and tilde pass through
unchanged (quote_plus uses an empty safe set, so even the slash is
escaped); every other byte becomes a percent sign followed by two
uppercase hexadecimal digits. -/
def quote_plus_byte (b : Nat) : List Nat :=
  if b = 32 then [43]
  else if (48 ≤ b ∧ b ≤ 57) ∨ (65 ≤ b ∧ b ≤ 90) ∨ (97 ≤ b ∧ b ≤ 122)
      ∨ b = 95 ∨ b = 46 ∨ b = 45 ∨ b = 126 then [b]
  else [37, hexDigitUpper (b / 16), hexDigitUpper (b % 16)]

/-- Embedding of urllib.parse.quote_plus on a byte string
(commoncrawl_extractor.py line 157). -/
def quote_plus (url : List Nat) : List Nat :=
  (url.map quote_plus_byte).flatten

/-- Embedding of os.path.join on two byte strings for POSIX paths
(commoncrawl_extractor.py line 158): an absolute second component
replaces the first; otherwise the components are joined, inserting a
slash (byte 47) unless the first component is empty or already ends in
one. -/
def os_path_join (a b : List Nat) : List Nat :=
  if b.head? = some 47 then b
  else if a = [] ∨ a.getLast? = some 47 then a ++ b
  else a ++ [47] ++ b

/-- Local filesystem as the Download Manager sees it: an association
list from paths (byte strings) to file contents, a content being an
arbitrary tag so that a partially downloaded or corrupted file is a
tag different from the one the network would produce. -/
structure FileSystem where
  files : List (List Nat × Nat)
deriving DecidableEq

/-- Embedding of os.path.isfile (commoncrawl_extractor.py line 160). -/
def isfile (fs : FileSystem) (p : List Nat) : Bool :=
  fs.files.any fun e => decide (e.1 = p)

/-- Embedding of the os.remove call wrapped in try/except OSError
(commoncrawl_extractor.py lines 165-168): removes the entry when
present and is a no-op when the file does not exist. -/
def os_remove (fs : FileSystem) (p : List Nat) : FileSystem :=
  ⟨fs.files.filter fun e => !decide (e.1 = p)⟩

/-- Embedding of CommonCrawlExtractor.__download
(commoncrawl_extractor.py lines 151-174). The network is the function
net from URLs to the content a fresh download would store. Returns the
local file path, whether a network request was performed
(urllib.request.urlretrieve at line 172), and the filesystem after the
call. When the file exists locally and reuse is configured, the path is
returned at once with no network request and no read of the cached
content; otherwise any stale file is removed and the URL is retrieved
into the local path. -/
def download (reuse : Bool) (dir : List Nat) (net : List Nat → Nat) (url : List Nat)
    (fs : FileSystem) : List Nat × Bool × FileSystem :=
  let local_filepath := os_path_join dir (quote_plus url)
  if isfile fs local_filepath && reuse then
    (local_filepath, false, fs)
  else
    let fs1 := os_remove fs local_filepath
    (local_filepath, true, ⟨(local_filepath, net url) :: fs1.files⟩)

/-- State of the shell environment that
CommonCrawlExtractor.__get_remote_index runs its commands in:
whether the aws CLI is present and the network reachable, the object
keys an aws s3 ls would list, the error text a failing invocation
writes (subprocess.getoutput merges stderr into the captured output),
and the transient listing file tmpaws.txt (none when absent, otherwise
its lines). -/
structure Shell where
  awsAvailable : Bool
  s3Keys : List String
  errText : List String
  tmpaws : Option (List String)

/-- Embedding of subprocess.getoutput("rm tmpaws.txt")
(commoncrawl_extractor.py line 119): removes the transient listing
file; getoutput never raises, so a missing file is a no-op. -/
def rm_tmpaws (s : Shell) : Shell :=
  { s with tmpaws := none }

/-- Embedding of the chained shell command at commoncrawl_extractor.py
lines 121-123, run through subprocess.getoutput (which captures stdout
and stderr and never raises): when aws works, the listing is redirected
into tmpaws.txt, awk prints the fourth field (the object key) of every
line, and the trailing rm removes the file; when the aws invocation
fails (CLI absent or network down), the output redirection has already
created tmpaws.txt empty, the chain stops at the first failing command,
tmpaws.txt is left behind, and the captured output is the error text. -/
def listing_cmd (s : Shell) : List String × Shell :=
  if s.awsAvailable then
    (s.s3Keys, { s with tmpaws := none })
  else
    (s.errText, { s with tmpaws := some [] })

/-- Embedding of CommonCrawlExtractor.__get_remote_index
(commoncrawl_extractor.py lines 113-129): remove the transient file,
run the listing command, and return the captured output split into
lines. The return type has no error case because subprocess.getoutput
never raises: whatever the shell printed is returned as the list of
names. -/
def get_remote_index (s : Shell) : List String × Shell :=
  let s1 := rm_tmpaws s
  listing_cmd s1

/-- Observable events of one CommonCrawlExtractor.__run execution, in
program order. -/
inductive RunEvent where
  | setup
  | downloadFile
  | processFile
  | registerWarcFile
  | deleteLocalFile
  | sysExit
deriving DecidableEq

/-- Embedding of CommonCrawlExtractor.__register_fully_extracted_warc_file
(commoncrawl_extractor.py lines 85-92) on the checkpoint log state: the
URL is appended to the log file opened in append mode. This method has
no caller in the source. -/
def register_fully_extracted_warc_file (log : List String) (warc_url : String) : List String :=
  log ++ [warc_url]

/-- Event trace of CommonCrawlExtractor.__run
(commoncrawl_extractor.py lines 205-217): __setup, then __download of
the single configured WARC URL, then __process_warc_gz_file on the
local file, then an unconditional sys.exit(). No call to
__register_fully_extracted_warc_file and no deletion of the local file
occurs on any path. -/
def run_events : List RunEvent :=
  [RunEvent.setup, RunEvent.downloadFile, RunEvent.processFile, RunEvent.sysExit]

/-- Event trace of CommonCrawlExtractor.extract_from_commoncrawl
(commoncrawl_extractor.py lines 219-259): the configuration values are
stored into instance fields and __run is invoked, so the trace is the
trace of __run whatever the configuration. -/
def extract_from_commoncrawl_events (_cfg : ExtractConfig) : List RunEvent :=
  run_events

/-- Scan deciding that every deleteLocalFile event in a trace is
strictly preceded by a registerWarcFile event; seen records whether a
registerWarcFile has occurred so far. -/
def register_before_delete (seen : Bool) : List RunEvent → Bool
  | [] => true
  | e :: rest =>
    (if e = RunEvent.deleteLocalFile then seen else true)
      && register_before_delete (seen || decide (e = RunEvent.registerWarcFile)) rest

/-- Whether an Except value is a normal result rather than a raised
exception. -/
def except_is_ok {ε α : Type} : Except ε α → Bool
  | Except.ok _ => true
  | Except.error _ => false

lemma isfile_eq_true_of_mem {fs : FileSystem} {p : List Nat} {c : Nat}
    (h : (p, c) ∈ fs.files) : isfile fs p = true := by
  exact List.any_eq_true.mpr ⟨(p, c), h, by simp⟩

lemma download_isfile (reuse : Bool) (dir : List Nat) (net : List Nat → Nat) (url : List Nat)
    (fs : FileSystem) :
    isfile (download reuse dir net url fs).2.2 (os_path_join dir (quote_plus url)) = true := by
  simp only [download]
  by_cases h : (isfile fs (os_path_join dir (quote_plus url)) && reuse) = true
  · rw [if_pos h]
    simp only [Bool.and_eq_true] at h
    exact h.1
  · rw [if_neg h]
    simp [isfile]

lemma length_filterMap_of_isSome {α β : Type} (f : α → Option β) (l : List α)
    (h : ∀ a ∈ l, (f a).isSome) : (l.filterMap f).length = l.length := by
  induction l with
  | nil => rfl
  | cons a l ih =>
    obtain ⟨b, hb⟩ := Option.isSome_iff_exists.mp (h a (List.mem_cons_self a l))
    simp [List.filterMap_cons, hb, ih fun x hx => h x (List.mem_cons_of_mem a hx)]

lemma process_warc_record_materialized_error (r : ArchRecord) (e : String)
    (h : r.extraction = Except.error e) :
    process_warc_record (delete_raw_stream (read_record r)) = none := by
  by_cases ht : r.rec_type = "response" <;>
    simp [process_warc_record, process_warc_record_ext, delete_raw_stream, read_record, ht, h]

lemma process_warc_record_materialized_some (r : ArchRecord) (a : Article)
    (ht : r.rec_type = "response") (h : r.extraction = Except.ok (some a)) :
    process_warc_record (delete_raw_stream (read_record r)) = some a := by
  simp [process_warc_record, process_warc_record_ext, delete_raw_stream, read_record, ht, h]

lemma sink_articles_eq_filterMap (cfg : ExtractConfig) (archive : List ArchRecord) :
    sink_articles cfg archive =
      archive.filterMap fun r => process_warc_record (delete_raw_stream (read_record r)) := by
  simp [sink_articles, on_valid_article_extracted, process_warc_gz_file, List.filterMap_map]
  rfl

/-- Claim C1: with reuse of previously downloaded files enabled and a
file present at the URL-escaped local path under the download
directory, __download returns that path at once, performs no network
request, leaves the filesystem unchanged, and never inspects the
cached content (the content tag c is arbitrary, so a partial or
corrupted file is reused the same way); consequently a second
invocation for the same URL after any first one performs no network
request. -/
theorem download_reuses_cached_file_without_network
    (dir : List Nat) (net : List Nat → Nat) (url : List Nat) (fs : FileSystem) (c : Nat)
    (hcached : (os_path_join dir (quote_plus url), c) ∈ fs.files) :
    download true dir net url fs = (os_path_join dir (quote_plus url), false, fs) ∧
    (download true dir net url (download true dir net url fs).2.2).2.1 = false := by
  have hfile : isfile fs (os_path_join dir (quote_plus url)) = true :=
    isfile_eq_true_of_mem hcached
  constructor
  · simp [download, hfile]
  · have h2 := download_isfile true dir net url fs
    generalize (download true dir net url fs).2.2 = fs2 at h2 ⊢
    simp [download, h2]

/-- Witness for C1 at a concrete one-byte directory, a URL containing
a space (escaped to a plus sign), and a filesystem already holding the
derived path with content tag 7. -/
theorem download_reuses_cached_file_without_network_witness :
    ((os_path_join [100] (quote_plus [97, 32]), 7) ∈
        (⟨[([100, 47, 97, 43], 7)]⟩ : FileSystem).files) ∧
    (download true [100] (fun _ => 0) [97, 32] ⟨[([100, 47, 97, 43], 7)]⟩ =
        (os_path_join [100] (quote_plus [97, 32]), false, ⟨[([100, 47, 97, 43], 7)]⟩) ∧
      (download true [100] (fun _ => 0) [97, 32]
          (download true [100] (fun _ => 0) [97, 32]
            (⟨[([100, 47, 97, 43], 7)]⟩ : FileSystem)).2.2).2.1 = false) :=
  ⟨by decide,
    download_reuses_cached_file_without_network [100] (fun _ => 0) [97, 32]
      ⟨[([100, 47, 97, 43], 7)]⟩ 7 (by decide)⟩

/-- Claim C2: a single record whose extraction raises is excluded from
the results while every other record of the batch is still processed;
for a batch of 10 records of which exactly one raises and the other 9
are response records each yielding an article, the sink receives
exactly 9 articles. -/
theorem single_record_failure_does_not_abort_batch (cfg : ExtractConfig)
    (g1 g2 : List ArchRecord) (bad : ArchRecord)
    (hbad : ∃ e, bad.extraction = Except.error e)
    (hgood : ∀ r ∈ g1 ++ g2,
      r.rec_type = "response" ∧ ∃ a, r.extraction = Except.ok (some a))
    (hlen : (g1 ++ g2).length = 9) :
    (sink_articles cfg (g1 ++ [bad] ++ g2)).length = 9 := by
  obtain ⟨e, he⟩ := hbad
  rw [sink_articles_eq_filterMap, List.filterMap_append, List.filterMap_append,
    List.length_append, List.length_append]
  have hbadnil :
      ([bad].filterMap fun r => process_warc_record (delete_raw_stream (read_record r))) = [] := by
    simp [process_warc_record_materialized_error bad e he]
  have hg1 :
      (g1.filterMap fun r => process_warc_record (delete_raw_stream (read_record r))).length =
        g1.length := by
    apply length_filterMap_of_isSome
    intro r hr
    obtain ⟨ht, a, ha⟩ := hgood r (List.mem_append_left _ hr)
    rw [process_warc_record_materialized_some r a ht ha]
    rfl
  have hg2 :
      (g2.filterMap fun r => process_warc_record (delete_raw_stream (read_record r))).length =
        g2.length := by
    apply length_filterMap_of_isSome
    intro r hr
    obtain ⟨ht, a, ha⟩ := hgood r (List.mem_append_right _ hr)
    rw [process_warc_record_materialized_some r a ht ha]
    rfl
  rw [List.length_append] at hlen
  rw [hbadnil, hg1, hg2]
  simpa using hlen

/-- Witness for C2: a concrete batch of 4 good response records, one
record whose extraction raises, and 5 further good response records;
the sink receives exactly 9 articles. -/
theorem single_record_failure_does_not_abort_batch_witness :
    (∃ e, (⟨"response", Except.error "Exception", []⟩ : ArchRecord).extraction =
        Except.error e) ∧
    (∀ r ∈ List.replicate 4
          (⟨"response", Except.ok (some ⟨"example.com", true, some "2016-06-15", "t"⟩), []⟩ :
            ArchRecord) ++
        List.replicate 5
          (⟨"response", Except.ok (some ⟨"example.com", true, some "2016-06-15", "t"⟩), []⟩ :
            ArchRecord),
      r.rec_type = "response" ∧ ∃ a, r.extraction = Except.ok (some a)) ∧
    (List.replicate 4
          (⟨"response", Except.ok (some ⟨"example.com", true, some "2016-06-15", "t"⟩), []⟩ :
            ArchRecord) ++
        List.replicate 5
          (⟨"response", Except.ok (some ⟨"example.com", true, some "2016-06-15", "t"⟩), []⟩ :
            ArchRecord)).length = 9 ∧
    (sink_articles ⟨none, true, true, true, none⟩
        (List.replicate 4
            (⟨"response", Except.ok (some ⟨"example.com", true, some "2016-06-15", "t"⟩), []⟩ :
              ArchRecord) ++
          [⟨"response", Except.error "Exception", []⟩] ++
          List.replicate 5
            (⟨"response", Except.ok (some ⟨"example.com", true, some "2016-06-15", "t"⟩), []⟩ :
              ArchRecord))).length = 9 := by
  have hg : ∀ r ∈ List.replicate 4
        (⟨"response", Except.ok (some ⟨"example.com", true, some "2016-06-15", "t"⟩), []⟩ :
          ArchRecord) ++
      List.replicate 5
        (⟨"response", Except.ok (some ⟨"example.com", true, some "2016-06-15", "t"⟩), []⟩ :
          ArchRecord),
      r.rec_type = "response" ∧ ∃ a, r.extraction = Except.ok (some a) := by
    intro r hr
    rcases List.mem_append.mp hr with h | h <;>
      rw [List.eq_of_mem_replicate h] <;>
      exact ⟨rfl, ⟨⟨"example.com", true, some "2016-06-15", "t"⟩, rfl⟩⟩
  exact ⟨⟨"Exception", rfl⟩, hg, by simp,
    single_record_failure_does_not_abort_batch ⟨none, true, true, true, none⟩ _ _ _
      ⟨"Exception", rfl⟩ hg (by simp)⟩

/-- Claim C3 (code bug evaluation): with the valid-hosts set
["example.com"] configured, a response record whose extracted article
has host other.org still reaches the sink, because no code on the path
from extract_from_commoncrawl to the sink reads the stored host
filter. -/
theorem sink_receives_article_with_invalid_host :
    sink_articles ⟨some ["example.com"], true, true, true, none⟩
        [⟨"response", Except.ok (some ⟨"other.org", true, some "2016-06-15", "t"⟩), []⟩] =
      [⟨"other.org", true, some "2016-06-15", "t"⟩] ∧
    ("other.org" : String) ∉ ["example.com"] :=
  ⟨rfl, by decide⟩

/-- Claim C4 (code bug evaluation): with strict_date configured true,
a response record whose extracted article has no determinable publish
date still reaches the sink, because no code on the path from
extract_from_commoncrawl to the sink reads the stored date filter and
__get_publishing_date is never called. -/
theorem sink_receives_dateless_article_despite_strict_date :
    sink_articles ⟨none, true, true, true, none⟩
        [⟨"response", Except.ok (some ⟨"example.com", false, none, "t"⟩), []⟩] =
      [⟨"example.com", false, none, "t"⟩] ∧
    get_publishing_date ⟨"example.com", false, none, "t"⟩ = Except.ok none :=
  ⟨rfl, rfl⟩

/-- Counterexample to claim C5: evaluation of the publish-date helper
on an article whose publish_date field is present but malformed raises
ValueError (the parser.parse call at line 101 is not guarded), so the
filter evaluation is not free of failure modes. -/
theorem get_publishing_date_raises_on_malformed :
    get_publishing_date ⟨"example.com", true, some "not a date", "t"⟩ =
      Except.error "ValueError" := rfl

/-- Claim C5 as amended: a missing publish-date field resolves to no
date without error, but evaluation raises exactly when the field is
present and its value is None (TypeError) or an unparseable string
(ValueError); evaluation is therefore not failure-free on malformed
fields. -/
theorem get_publishing_date_partial_safety (a : Article) :
    (a.publish_date_present = false → get_publishing_date a = Except.ok none) ∧
    (except_is_ok (get_publishing_date a) = false ↔
      a.publish_date_present = true ∧
        (a.publish_date = none ∨
          ∃ s e, a.publish_date = some s ∧ dateutil_parse s = Except.error e)) := by
  obtain ⟨host, pres, pd, t⟩ := a
  cases pres with
  | false =>
    refine ⟨fun _ => (by simp [get_publishing_date]), ?_⟩
    simp [get_publishing_date, except_is_ok]
  | true =>
    refine ⟨fun h => Bool.noConfusion h, ?_⟩
    cases pd with
    | none => simp [get_publishing_date, except_is_ok]
    | some s =>
      cases hds : dateutil_parse s with
      | ok d => simp [get_publishing_date, except_is_ok, hds, Except.map]
      | error e => simp [get_publishing_date, except_is_ok, hds, Except.map]

/-- Witness for the amended C5 at a concrete article with no
publish_date field. -/
theorem get_publishing_date_partial_safety_witness :
    (get_publishing_date ⟨"example.com", false, none, "t"⟩ = Except.ok none) ∧
    (except_is_ok (get_publishing_date ⟨"example.com", false, none, "t"⟩) = false ↔
      (⟨"example.com", false, none, "t"⟩ : Article).publish_date_present = true ∧
        ((⟨"example.com", false, none, "t"⟩ : Article).publish_date = none ∨
          ∃ s e, (⟨"example.com", false, none, "t"⟩ : Article).publish_date = some s ∧
            dateutil_parse s = Except.error e)) :=
  ⟨(get_publishing_date_partial_safety ⟨"example.com", false, none, "t"⟩).1 rfl,
    (get_publishing_date_partial_safety ⟨"example.com", false, none, "t"⟩).2⟩

/-- Counterexample to claim C6: on a shell where the aws invocation
cannot be completed, __get_remote_index returns normally, handing back
the captured error text as the list of archive names instead of
failing; the transient listing file is left behind (recreated empty by
the output redirection). -/
theorem get_remote_index_returns_error_text :
    get_remote_index ⟨false, ["CC-NEWS/file1.warc.gz"], ["aws: command not found"],
        some ["stale-line"]⟩ =
      (["aws: command not found"],
        ⟨false, ["CC-NEWS/file1.warc.gz"], ["aws: command not found"], some []⟩) := rfl

/-- Claim C6 as amended: the index-resolution operation never fails;
it always removes the transient listing file before the listing call,
returns the object keys when the listing succeeds (removing the file
again afterwards), and when the listing cannot be completed it returns
the captured shell error text as names and leaves the transient file
behind, recreated empty. -/
theorem get_remote_index_never_fails (s : Shell) :
    (rm_tmpaws s).tmpaws = none ∧
    (get_remote_index s).1 = (if s.awsAvailable then s.s3Keys else s.errText) ∧
    (get_remote_index s).2.tmpaws = (if s.awsAvailable then none else some []) := by
  obtain ⟨avail, keys, err, tmp⟩ := s
  cases avail <;> simp [rm_tmpaws, get_remote_index, listing_cmd]

/-- Claim C7: opening an archive produces the fully materialized
record sequence in which every payload has been read into read_stream
and every raw stream handle has been removed, and the sequence handed
to the callback contains each archive record exactly once, in the
original order. -/
theorem process_warc_gz_file_materializes_in_order (archive : List ArchRecord) :
    process_warc_gz_file archive =
      archive.map (fun r => ⟨r.rec_type, r.extraction, r.payload, none⟩) := by
  simp only [process_warc_gz_file, List.map_map]
  rfl

/-- Claim C8: in every execution of extract_from_commoncrawl, every
deletion of the local WARC file is preceded by the append of its URL
to the checkpoint log; the property holds because the trace contains
no deletion event at all (the unconditional sys.exit in __run is
reached first, see C9). -/
theorem local_file_never_deleted_before_checkpoint (cfg : ExtractConfig) :
    register_before_delete false (extract_from_commoncrawl_events cfg) = true ∧
    RunEvent.deleteLocalFile ∉ extract_from_commoncrawl_events cfg :=
  ⟨rfl, by simp [extract_from_commoncrawl_events, run_events]⟩

/-- Claim C9: for every configuration, extract_from_commoncrawl ends
in the unconditional sys.exit of __run, and neither the checkpoint
registration nor the deletion of the local WARC file ever occurs,
regardless of delete_warc_after_extraction and
log_pathname_fully_extracted_warcs. -/
theorem extract_from_commoncrawl_always_exits (cfg : ExtractConfig) :
    (extract_from_commoncrawl_events cfg).getLast? = some RunEvent.sysExit ∧
    RunEvent.registerWarcFile ∉ extract_from_commoncrawl_events cfg ∧
    RunEvent.deleteLocalFile ∉ extract_from_commoncrawl_events cfg :=
  ⟨rfl, by simp [extract_from_commoncrawl_events, run_events],
    by simp [extract_from_commoncrawl_events, run_events]⟩

/-- Claim C10: a record whose type tag is not response is returned as
None by process_warc_record without invoking the extraction
capability, and contributes no article to the sink, independently of
the configured criteria. -/
theorem non_response_record_skips_extraction (cfg : ExtractConfig) (r : ArchRecord)
    (h : r.rec_type ≠ "response") :
    process_warc_record_ext (delete_raw_stream (read_record r)) = (none, false) ∧
    sink_articles cfg [r] = [] := by
  have h1 : process_warc_record_ext (delete_raw_stream (read_record r)) = (none, false) := by
    simp [process_warc_record_ext, delete_raw_stream, read_record, h]
  refine ⟨h1, ?_⟩
  rw [sink_articles_eq_filterMap]
  simp [process_warc_record, h1]

/-- Witness for C10 at a concrete request record. -/
theorem non_response_record_skips_extraction_witness :
    (("request" : String) ≠ "response") ∧
    (process_warc_record_ext
        (delete_raw_stream (read_record ⟨"request", Except.ok none, []⟩)) = (none, false) ∧
      sink_articles ⟨none, true, true, true, none⟩ [⟨"request", Except.ok none, []⟩] = []) :=
  ⟨by decide,
    non_response_record_skips_extraction ⟨none, true, true, true, none⟩
      ⟨"request", Except.ok none, []⟩ (by decide)⟩
